import Mathlib

/-!
Verification of the Birthday-greetings service (Go) against its specification.

The development shallowly embeds the repository layer (`pkg/user/repo.go`),
the HTTP handlers (`pkg/handlers/user.go`) and the bot / notification
scheduler (`bot` package) over an explicit in-memory database state.
MySQL is modelled as that state; `database/sql` row scanning is modelled
faithfully, in particular the fact that scanning a NULL column into a Go
`int64` destination fails (`convertAssign` reports
"converting NULL to int64 is unsupported").  bcrypt hashing and
verification, and the Redis-backed session store, are abstracted as
function parameters, since they are external collaborators.
-/

/-- A SQL DATE value, as stored in the `birthday` column of `users`. -/
structure Date where
  year : Nat
  month : Nat
  day : Nat
deriving Repr, DecidableEq

/-- A row of the `users` table (init.sql).  `telegramID INT UNIQUE` has no
NOT NULL constraint, hence `Option Int`; every other column is NOT NULL. -/
structure UserRow where
  id : Int
  username : String
  firstname : String
  middlename : String
  lastname : String
  password : String
  birthday : Date
  telegram : String
  telegramID : Option Int
deriving Repr, DecidableEq

/-- The Go struct `user.User` (pkg/user/user.go).  `TelegramID` is a plain
`int64` there, which is what makes scanning a NULL `telegramID` fail. -/
structure User where
  id : Int
  username : String
  firstname : String
  middlename : String
  lastname : String
  password : String
  birthday : Date
  telegram : String
  telegramID : Int
deriving Repr, DecidableEq

/-- A row of the `subscribes` table: directed edge
(userID = subscribed-to, subscriberID = notified party). -/
structure Edge where
  userID : Int
  subscriberID : Int
deriving Repr, DecidableEq

/-- The MySQL database state seen through the repository. -/
structure DB where
  users : List UserRow
  subscribes : List Edge
deriving Repr, DecidableEq

/-- The error values produced by the repository layer: `ErrNoUser`,
`ErrBadPass`, `ErrExists`, the "not valid type" error of `Subscribe`, and
the `rows.Scan` failure on a NULL `telegramID` (a raw database/sql error). -/
inductive RepoError where
  | noUser
  | badPass
  | alreadyExists
  | notValidType
  | scanError
deriving Repr, DecidableEq

/-- `err.Error()` for each repository error (repo.go error declarations;
the scan message is the database/sql NULL-conversion error text). -/
def errorMessage : RepoError → String
  | .noUser => "no user found"
  | .badPass => "invalid password"
  | .alreadyExists => "already exists"
  | .notValidType => "not valid type"
  | .scanError => "converting NULL to int64 is unsupported"

/-- The Go zero value of `user.User` (`user := &User{}` before scanning). -/
def zeroUser : User :=
  { id := 0
    username := ""
    firstname := ""
    middlename := ""
    lastname := ""
    password := ""
    birthday := ⟨0, 0, 0⟩
    telegram := ""
    telegramID := 0 }

/-- `Authorize` (repo.go): `SELECT id, username, password FROM users WHERE
username = ?`, then `bcrypt.CompareHashAndPassword`.  A row-not-found (or any
query error) is reported as `ErrNoUser`; a failed comparison as `ErrBadPass`.
`verify hash pass` abstracts the bcrypt comparison. -/
def Authorize (verify : String → String → Bool) (db : DB)
    (username pass : String) : Except RepoError User :=
  match db.users.find? (fun r => r.username == username) with
  | none => .error .noUser
  | some r =>
      let user := { zeroUser with
        id := r.id
        username := r.username
        password := r.password }
      if verify user.password pass then .ok user else .error .badPass

/-- `MakeUser` (repo.go): hash the password, then
`INSERT INTO users (username, password, firstname, middlename, lastname,
birthday, telegram)`.  A violated UNIQUE constraint (username or telegram)
makes the insert fail, reported as `ErrExists`; `telegramID` is not in the
column list, so the new row stores NULL there.  `newID` is the
AUTO_INCREMENT id assigned by MySQL (returned via `LastInsertId`);
`hash` abstracts `bcrypt.GenerateFromPassword`. -/
def MakeUser (hash : String → String) (db : DB)
    (username pass firstname middlename lastname : String)
    (birthday : Date) (telegram : String) (newID : Int) :
    DB × Except RepoError User :=
  let hashedPass := hash pass
  if db.users.any (fun r => r.username == username || r.telegram == telegram) then
    (db, .error .alreadyExists)
  else
    ({ db with users := db.users ++
        [{ id := newID
           username := username
           firstname := firstname
           middlename := middlename
           lastname := lastname
           password := hashedPass
           birthday := birthday
           telegram := telegram
           telegramID := none }] },
     .ok { zeroUser with
       id := newID
       username := username })

/-- The projection scanned by `GetUsers` and `GetUserByBirthday`:
`id, username, firstname, middlename, lastname, birthday, telegram`
into a zero `User` (password and telegramID stay at their zero values). -/
def scanPublic (r : UserRow) : User :=
  { zeroUser with
    id := r.id
    username := r.username
    firstname := r.firstname
    middlename := r.middlename
    lastname := r.lastname
    birthday := r.birthday
    telegram := r.telegram }

/-- `GetUsers` (repo.go): `SELECT id, username, firstname, middlename,
lastname, birthday, telegram FROM users`; all selected columns are NOT NULL
so scanning always succeeds; an empty result set is reported as `ErrNoUser`. -/
def GetUsers (db : DB) : Except RepoError (List User) :=
  let users := db.users.map scanPublic
  if users.isEmpty then .error .noUser else .ok users

/-- `Subscribe` (repo.go): `SELECT id, username, telegram FROM users WHERE
id = ?` (`ErrNoUser` if absent), then — by `typeOf` — case 1 inserts the
edge into `subscribes`, case 0 deletes the matching edges, any other value
is "not valid type".  The `subscribes` table has no uniqueness constraint,
but it does declare `FOREIGN KEY (subscriberID) REFERENCES users(id)`
(init.sql), so the INSERT fails when `subscriberID` references no user row;
the Go code maps any `Exec` error to `ErrExists`.  (The FOREIGN KEY on
`userID` is always satisfied here, since the preceding SELECT found that
row.) -/
def Subscribe (db : DB) (userID subscriberID : Int) (typeOf : Int) :
    DB × Except RepoError User :=
  match db.users.find? (fun r => r.id == userID) with
  | none => (db, .error .noUser)
  | some r =>
      let user := { zeroUser with
        id := r.id
        username := r.username
        telegram := r.telegram }
      if typeOf == 1 then
        if db.users.any (fun x => x.id == subscriberID) then
          ({ db with subscribes := db.subscribes ++ [⟨userID, subscriberID⟩] }, .ok user)
        else
          (db, .error .alreadyExists)
      else if typeOf == 0 then
        ({ db with subscribes :=
            db.subscribes.filter (fun e => !(e.userID == userID && e.subscriberID == subscriberID)) },
         .ok user)
      else
        (db, .error .notValidType)

/-- The rows produced by the `GetSubscribedUsers` join:
`FROM users u JOIN subscribes s ON u.id = s.subscriberID WHERE s.userID = ?`. -/
def joinRows (db : DB) (userID : Int) : List UserRow :=
  db.subscribes.filterMap (fun e =>
    if e.userID == userID then db.users.find? (fun r => r.id == e.subscriberID) else none)

/-- Scanning one joined row in `GetSubscribedUsers`: the selected columns
include `u.telegramID`, scanned into the `int64` field `TelegramID`.
database/sql cannot convert a NULL value into `int64`, so a row whose
`telegramID` is NULL makes `rows.Scan` return an error. -/
def scanSubscriber (r : UserRow) : Except RepoError User :=
  match r.telegramID with
  | none => .error .scanError
  | some tid =>
      .ok { id := r.id
            username := r.username
            firstname := r.firstname
            middlename := r.middlename
            lastname := r.lastname
            password := ""
            birthday := r.birthday
            telegram := r.telegram
            telegramID := tid }

/-- The `rows.Next()` loop of `GetSubscribedUsers`: scan each row in turn,
appending to `users`, and return the scan error as soon as one row fails. -/
def scanRows : List UserRow → Except RepoError (List User)
  | [] => .ok []
  | r :: rest =>
      match scanSubscriber r with
      | .error e => .error e
      | .ok u =>
          match scanRows rest with
          | .error e => .error e
          | .ok us => .ok (u :: us)

/-- `GetSubscribedUsers` (repo.go): run the join, scan each row, and report
an empty result set as `ErrNoUser`. -/
def GetSubscribedUsers (db : DB) (userID : Int) : Except RepoError (List User) :=
  match scanRows (joinRows db userID) with
  | .error e => .error e
  | .ok users => if users.isEmpty then .error .noUser else .ok users

/-- `GetUserByTelegram` (repo.go): `SELECT id, username, telegram FROM users
WHERE telegram = ?`; `ErrNoUser` when absent. -/
def GetUserByTelegram (db : DB) (telegram : String) : Except RepoError User :=
  match db.users.find? (fun r => r.telegram == telegram) with
  | none => .error .noUser
  | some r =>
      .ok { zeroUser with
        id := r.id
        username := r.username
        telegram := r.telegram }

/-- The rows matched by `GetUserByBirthday`:
`WHERE MONTH(birthday) = ? AND DAY(birthday) = ?` — the year is ignored. -/
def birthdayRows (db : DB) (month day : Nat) : List UserRow :=
  db.users.filter (fun r => r.birthday.month == month && r.birthday.day == day)

/-- `GetUserByBirthday` (repo.go): select the public projection of every
user whose birth date has the given month and day (any year); an empty
result set is reported as `ErrNoUser`. -/
def GetUserByBirthday (db : DB) (month day : Nat) : Except RepoError (List User) :=
  let users := (birthdayRows db month day).map scanPublic
  if users.isEmpty then .error .noUser else .ok users

/-- One outbound Telegram message of the notification cycle:
`tgbotapi.NewMessage(chatID, text)`. -/
structure Notification where
  chatID : Int
  text : String
deriving Repr, DecidableEq

/-- The display name used in the birthday message:
`u.FirstName + " " + u.MiddleName + " " + u.LastName`. -/
def displayName (u : User) : String :=
  u.firstname ++ " " ++ u.middlename ++ " " ++ u.lastname

/-- The text built by `sendTelegramNotification`. -/
def birthdayMessage (employeeName : String) : String :=
  "Сегодня день рождения у " ++ employeeName ++ "! Поздравьте его!"

/-- `CheckAndSendNotifications` (bot package): query the birthday users for
today's (month, day); on error, log and stop.  For each birthday user,
query their subscribers; on error, log and `continue` with the next user.
Otherwise send one message per subscriber, addressed to the subscriber's
`TelegramID`, containing the birthday user's display name.  The result is
the list of messages handed to `bot.Send` (send failures are logged and do
not affect the emitted sequence). -/
def CheckAndSendNotifications (db : DB) (month day : Nat) : List Notification :=
  match GetUserByBirthday db month day with
  | .error _ => []
  | .ok users =>
      users.flatMap (fun u =>
        match GetSubscribedUsers db u.id with
        | .error _ => []
        | .ok subscribers =>
            subscribers.map (fun sub => ⟨sub.telegramID, birthdayMessage (displayName u)⟩))

/-- Modelled from the spec: the session record held by the Session Store
(pkg/sessions is not part of the sources here; §3 "Session": owning user
ID, display login, user-agent captured at creation). Field shapes follow
the handlers' calls `Create(&sessions.Session{ID: u.ID, Login: u.Username,
Useragent: r.UserAgent()})`. -/
structure Session where
  id : Int
  login : String
  useragent : String
deriving Repr, DecidableEq

/-- Modelled from the spec: the opaque token wrapper consumed and produced
by the Session Store (`sessions.SessionID{ID: token}` in the handlers). -/
structure SessionID where
  id : String
deriving Repr, DecidableEq

/-- `strings.HasPrefix(s, pre)` (Go): whether `pre` is a prefix of `s`,
byte for byte. -/
def goHasPre (s pre : String) : Bool := pre.data.isPrefixOf s.data

/-- An HTTP response as written by the handlers: status code plus body
(`http.Error(w, msg, code)` or a 200 with a JSON body). -/
structure HTTPResponse where
  status : Nat
  body : String
deriving Repr, DecidableEq

/-- Handler constant `ErrReading`. -/
def ErrReading : String := "\x7b\"message\": \"error reading request\"\x7d"

/-- Handler constant `ErrUserNotFound`. -/
def ErrUserNotFound : String := "\x7b\"message\":\"user not found\"\x7d"

/-- Handler constant `ErrInvalidPass`. -/
def ErrInvalidPass : String := "\x7b\"message\":\"invalid password\"\x7d"

/-- Handler constant `ErrBadRequest`. -/
def ErrBadRequest : String := "\x7b\"message\": \"bad request\"\x7d"

/-- The login form (`AuthForm`): only `Password` carries `validate:"required"`. -/
structure AuthForm where
  username : String
  password : String
deriving Repr, DecidableEq

/-- The subscription form (`SubscribeForm`): both int64 fields carry
`validate:"required"`, which for an integer means "not the zero value". -/
structure SubscribeForm where
  userID : Int
  subscriberID : Int
deriving Repr, DecidableEq

/-- `dataValidation` on an `AuthForm`: go-playground/validator `required`
fails exactly when the field holds its zero value, so the returned error
list is non-nil iff the password is empty. -/
def loginValidationFails (af : AuthForm) : Bool :=
  af.password == ""

/-- `dataValidation` on a `SubscribeForm`: `required` on an `int64` field
fails exactly when the value is zero. -/
def subscribeValidationFails (sf : SubscribeForm) : Bool :=
  sf.userID == 0 || sf.subscriberID == 0

/-- The 422 body written after a validation failure (the JSON-encoded
per-field error list; the exact rendering is immaterial to the claims). -/
def validationBody : String := "\x7b\"errors\": [...]\x7d"

/-- The 200 body of a successful login: `json.Marshal(map[string]string{
"session": sess.ID})`. -/
def sessionJSON (token : String) : String :=
  "\x7b\"session\":\"" ++ token ++ "\"\x7d"

/-- The error component of an `Authorize` result, as the nilable Go `err`. -/
def authErr (res : Except RepoError User) : Option RepoError :=
  match res with
  | .error e => some e
  | .ok _ => none

/-- The user component of an `Authorize` result, as the nilable Go `*User`. -/
def authUser (res : Except RepoError User) : Option User :=
  match res with
  | .error _ => none
  | .ok u => some u

/-- `UserHandler.Login` (pkg/handlers/user.go), given the already-read body
as `form` (`none` models a `json.Unmarshal` failure).  The branch structure
follows the source line by line: unmarshal failure → 400; validation
failure → 422; `err != nil` after `Authorize` → 400 with `err.Error()`;
then the source compares `err` against `ErrNoUser` / `ErrBadPass` (401) and
`u` against nil (400); finally `Sessions.Create` → 500 on failure, else 200
with the session token.  The second component records whether
`Sessions.Create` was called.  `create` abstracts the Redis-backed store. -/
def Login (verify : String → String → Bool)
    (create : Session → Except Unit SessionID)
    (db : DB) (form : Option AuthForm) (userAgent : String) :
    HTTPResponse × Bool :=
  match form with
  | none => (⟨400, ErrBadRequest⟩, false)
  | some af =>
      if loginValidationFails af then (⟨422, validationBody⟩, false)
      else
        let res := Authorize verify db af.username af.password
        let err := authErr res
        let u := authUser res
        if err.isSome then
          (⟨400, errorMessage (err.getD .noUser)⟩, false)
        else if err == some .noUser then
          (⟨401, ErrUserNotFound⟩, false)
        else if err == some .badPass then
          (⟨401, ErrInvalidPass⟩, false)
        else if u.isNone then
          (⟨400, ErrBadRequest⟩, false)
        else
          match create ⟨(u.getD zeroUser).id, (u.getD zeroUser).username, userAgent⟩ with
          | .error _ => (⟨500, ""⟩, true)
          | .ok sid => (⟨200, sessionJSON sid.id⟩, true)

/-- The response payloads of the protected routes, kept structured (the Go
code JSON-marshals `users` for the 200 of GET /users). -/
inductive HandlerResp where
  | unauthorized
  | badRequest (body : String)
  | unprocessable
  | okUsers (users : List User)
  | okEmpty
deriving Repr, DecidableEq

/-- `UserHandler.GetUsers` (pkg/handlers/user.go): require the
`Authorization` header to start with "Bearer ", call `Sessions.Check` on
`token[7:]`; a missing prefix or absent session is a 401 without touching
the repository; otherwise call `UserRepo.GetUsers`.  The second component
records whether the repository operation was invoked.  `check` abstracts
the session store lookup. -/
def GetUsersHandler (check : SessionID → Option Session) (db : DB)
    (authHeader : String) : HandlerResp × Bool :=
  if !(goHasPre authHeader "Bearer ") then (.unauthorized, false)
  else
    match check ⟨authHeader.drop 7⟩ with
    | none => (.unauthorized, false)
    | some _ =>
        match GetUsers db with
        | .error e => (.badRequest (errorMessage e), true)
        | .ok users => (.okUsers users, true)

/-- `UserHandler.SubscribeToUser` (pkg/handlers/user.go): same bearer-token
guard as GetUsers, then body unmarshalling (`none` models a failure),
validation, and `UserRepo.Subscribe(userID, subscriberID, 1)`.  Returns the
resulting database, the response, and whether `Subscribe` was invoked. -/
def SubscribeToUser (check : SessionID → Option Session) (db : DB)
    (authHeader : String) (form : Option SubscribeForm) :
    DB × HandlerResp × Bool :=
  if !(goHasPre authHeader "Bearer ") then (db, .unauthorized, false)
  else
    match check ⟨authHeader.drop 7⟩ with
    | none => (db, .unauthorized, false)
    | some _ =>
        match form with
        | none => (db, .badRequest ErrBadRequest, false)
        | some sf =>
            if subscribeValidationFails sf then (db, .unprocessable, false)
            else
              let r := Subscribe db sf.userID sf.subscriberID 1
              match r.2 with
              | .error _ => (r.1, .badRequest ErrBadRequest, true)
              | .ok _ => (r.1, .okEmpty, true)

/-- `UserHandler.UnsubscribeToUser` (pkg/handlers/user.go): identical to
`SubscribeToUser` except the repository call is
`Subscribe(userID, subscriberID, 0)`. -/
def UnsubscribeToUser (check : SessionID → Option Session) (db : DB)
    (authHeader : String) (form : Option SubscribeForm) :
    DB × HandlerResp × Bool :=
  if !(goHasPre authHeader "Bearer ") then (db, .unauthorized, false)
  else
    match check ⟨authHeader.drop 7⟩ with
    | none => (db, .unauthorized, false)
    | some _ =>
        match form with
        | none => (db, .badRequest ErrBadRequest, false)
        | some sf =>
            if subscribeValidationFails sf then (db, .unprocessable, false)
            else
              let r := Subscribe db sf.userID sf.subscriberID 0
              match r.2 with
              | .error _ => (r.1, .badRequest ErrBadRequest, true)
              | .ok _ => (r.1, .okEmpty, true)

/-- Go string slicing `s[i:]`: in bounds (`i <= len(s)`) it yields the
suffix, out of bounds it panics with "slice bounds out of range".  The
texts sliced by the bot handlers are ASCII, where Go's byte indices and
character indices coincide. -/
def goSliceFrom (s : String) (i : Nat) : Except String String :=
  if i ≤ s.length then .ok (s.drop i)
  else .error "slice bounds out of range"

/-- `subscribeHandler` (bot package), on a message with the given text from
the given telegram user name.  The first step is `update.Message.Text[11:]`
("/subscribe " is 11 bytes), then `strconv.Atoi`, `GetUserByTelegram` on
"@"+username, and `Subscribe(userID, u.ID, 1)`.  The `Except` error is a
panic escaping the handler; `.ok` carries the updated database and the
reply texts. -/
def subscribeHandler (db : DB) (text fromUserName : String) :
    Except String (DB × List String) := do
  let arg ← goSliceFrom text 11
  match arg.toInt? with
  | none => .ok (db, ["strconv.Atoi: parsing " ++ arg ++ ": invalid syntax"])
  | some userID =>
      match GetUserByTelegram db ("@" ++ fromUserName) with
      | .error e => .ok (db, [errorMessage e])
      | .ok u =>
          let r := Subscribe db userID u.id 1
          match r.2 with
          | .error e => .ok (db, [errorMessage e])
          | .ok subUser => .ok (r.1, ["Вы подписались на " ++ subUser.telegram])

/-- `unsubscribeHandler` (bot package): identical shape, slicing
`update.Message.Text[13:]` ("/unsubscribe " is 13 bytes) and calling
`Subscribe(userID, u.ID, 0)`. -/
def unsubscribeHandler (db : DB) (text fromUserName : String) :
    Except String (DB × List String) := do
  let arg ← goSliceFrom text 13
  match arg.toInt? with
  | none => .ok (db, ["strconv.Atoi: parsing " ++ arg ++ ": invalid syntax"])
  | some userID =>
      match GetUserByTelegram db ("@" ++ fromUserName) with
      | .error e => .ok (db, [errorMessage e])
      | .ok u =>
          let r := Subscribe db userID u.id 0
          match r.2 with
          | .error e => .ok (db, [errorMessage e])
          | .ok subUser => .ok (r.1, ["Вы отписались от " ++ subUser.telegram])

/-! ## Helper definitions and lemmas for the theorems -/

/-- The `User` produced by a successful `scanSubscriber` on a row whose
`telegramID` is bound. -/
def boundUser (r : UserRow) : User :=
  { id := r.id
    username := r.username
    firstname := r.firstname
    middlename := r.middlename
    lastname := r.lastname
    password := ""
    birthday := r.birthday
    telegram := r.telegram
    telegramID := r.telegramID.getD 0 }

lemma scanSubscriber_bound (r : UserRow) (tid : Int) (h : r.telegramID = some tid) :
    scanSubscriber r = .ok (boundUser r) := by
  simp [scanSubscriber, boundUser, h]

lemma scanRows_all_bound (l : List UserRow)
    (h : ∀ s ∈ l, s.telegramID ≠ none) :
    scanRows l = .ok (l.map boundUser) := by
  induction l with
  | nil => rfl
  | cons a t ih =>
      obtain ⟨tid, ha⟩ : ∃ tid, a.telegramID = some tid := by
        cases haa : a.telegramID with
        | none => exact absurd haa (h a (List.mem_cons_self a t))
        | some tid => exact ⟨tid, rfl⟩
      have ih' := ih (fun s hs => h s (List.mem_cons_of_mem _ hs))
      simp [scanRows, scanSubscriber_bound a tid ha, ih']

lemma scanRows_null (l : List UserRow)
    (h : ∃ s ∈ l, s.telegramID = none) :
    scanRows l = .error .scanError := by
  induction l with
  | nil => simp at h
  | cons a t ih =>
      cases haa : a.telegramID with
      | none => simp [scanRows, scanSubscriber, haa]
      | some tid =>
          obtain ⟨s, hs, hnone⟩ := h
          rcases List.mem_cons.mp hs with rfl | hs'
          · rw [haa] at hnone; cases hnone
          · simp [scanRows, scanSubscriber_bound a tid haa, ih ⟨s, hs', hnone⟩]

lemma getSubscribedUsers_all_bound (db : DB) (uid : Int)
    (h : ∀ s ∈ joinRows db uid, s.telegramID ≠ none) :
    GetSubscribedUsers db uid =
      if (joinRows db uid).isEmpty then .error .noUser
      else .ok ((joinRows db uid).map boundUser) := by
  unfold GetSubscribedUsers
  rw [scanRows_all_bound _ h]
  cases hj : joinRows db uid with
  | nil => simp
  | cons a t => simp

/-- Concrete bcrypt stand-in used by witnesses and counterexamples. -/
def hashW (pass : String) : String := "h:" ++ pass

/-- Concrete bcrypt comparison matching `hashW`. -/
def verifyW (hash pass : String) : Bool := hash == "h:" ++ pass

/-- Concrete session store for witnesses: creation always succeeds. -/
def createW : Session → Except Unit SessionID := fun _ => .ok ⟨"tok"⟩

/-- Concrete session store lookup finding no session. -/
def checkNoneW : SessionID → Option Session := fun _ => none

/-- Concrete session store lookup resolving a session. -/
def checkSomeW : SessionID → Option Session := fun _ => some ⟨1, "u1", "ua"⟩

/-- Witness fixture: the birthday user U (born 15 June 1990, bound). -/
def rowW1 : UserRow := ⟨1, "u1", "Ivan", "I", "Ivanov", "h:pw", ⟨1990, 6, 15⟩, "@u1", some 111⟩

/-- Witness fixture: subscriber S1 with no bound account (NULL telegramID). -/
def rowW2 : UserRow := ⟨2, "u2", "Petr", "P", "Petrov", "h:pw", ⟨1985, 1, 1⟩, "@u2", none⟩

/-- Witness fixture: subscriber S2 with a bound account (telegramID 333). -/
def rowW3 : UserRow := ⟨3, "u3", "Anna", "A", "Orlova", "h:pw", ⟨1986, 2, 2⟩, "@u3", some 333⟩

/-- The state of the isolation scenario: S1 and S2 subscribe to U; S1 is
unbound, S2 is bound. -/
def dbW : DB := ⟨[rowW1, rowW2, rowW3], [⟨1, 2⟩, ⟨1, 3⟩]⟩

/-- The same scenario with only the bound subscriber S2. -/
def dbWB : DB := ⟨[rowW1, rowW3], [⟨1, 3⟩]⟩

/-! ## Claims -/

/-- C3: `Authorize(username, password)` returns `ErrNoUser` when no user
record carries that username; when the record exists (usernames are unique
by schema) it returns `ErrBadPass` if the supplied password does not match
the stored hash, and otherwise the authenticated user (the scanned
id/username/password projection) with no error. -/
theorem authorize_contract (verify : String → String → Bool) (db : DB)
    (name pass : String) :
    ((∀ r ∈ db.users, r.username ≠ name) →
      Authorize verify db name pass = .error .noUser) ∧
    (∀ r ∈ db.users, r.username = name →
      (∀ r' ∈ db.users, r'.username = name → r' = r) →
      (verify r.password pass = false →
        Authorize verify db name pass = .error .badPass) ∧
      (verify r.password pass = true →
        Authorize verify db name pass =
          .ok { zeroUser with
            id := r.id
            username := r.username
            password := r.password })) := by
  constructor
  · intro h
    have hnone : db.users.find? (fun r => r.username == name) = none := by
      rw [List.find?_eq_none]
      intro x hx
      simpa using h x hx
    simp [Authorize, hnone]
  · intro r hr hname huniq
    have hsome : (db.users.find? (fun x => x.username == name)).isSome := by
      rw [List.find?_isSome]
      exact ⟨r, hr, by simp [hname]⟩
    obtain ⟨r₀, hfind⟩ := Option.isSome_iff_exists.mp hsome
    have hr₀mem := List.mem_of_find?_eq_some hfind
    have hr₀p : r₀.username = name := by simpa using List.find?_some hfind
    have hr₀ : r₀ = r := huniq r₀ hr₀mem hr₀p
    subst hr₀
    constructor
    · intro hv
      simp [Authorize, hfind, hv]
    · intro hv
      simp [Authorize, hfind, hv]

/-- Witness for C3: all three outcomes on the concrete fixture. -/
theorem authorize_contract_witness :
    Authorize verifyW dbW "zz" "pw" = .error .noUser ∧
    Authorize verifyW dbW "u1" "bad" = .error .badPass ∧
    Authorize verifyW dbW "u1" "pw" =
      .ok { zeroUser with id := 1, username := "u1", password := "h:pw" } := by
  refine ⟨(authorize_contract verifyW dbW "zz" "pw").1 (by decide), ?_, ?_⟩
  · exact (((authorize_contract verifyW dbW "u1" "bad").2 rowW1 (by decide) (by decide)
      (by decide)).1 (by decide))
  · exact (((authorize_contract verifyW dbW "u1" "pw").2 rowW1 (by decide) (by decide)
      (by decide)).2 (by decide))

/-- C9: an inbound message whose text is exactly "/subscribe" (10 bytes) or
exactly "/unsubscribe" (12 bytes) makes the matching command handler slice
the text past its end (`Text[11:]` resp. `Text[13:]`), raising an
out-of-range panic instead of an error reply, for every database state and
sender. -/
theorem bare_command_slice_panics (db : DB) (fromUserName : String) :
    subscribeHandler db "/subscribe" fromUserName =
      .error "slice bounds out of range" ∧
    unsubscribeHandler db "/unsubscribe" fromUserName =
      .error "slice bounds out of range" := by
  constructor <;> rfl

/-- C5: whenever credential verification fails (`Authorize` returns any
error — unknown user or wrong password), the Login flow never calls the
Session Store's `Create`: the recorded create-called flag is `false`, for
every session store `create`. -/
theorem login_no_create_on_auth_failure (verify : String → String → Bool)
    (create : Session → Except Unit SessionID) (db : DB) (af : AuthForm)
    (userAgent : String) (e : RepoError)
    (h : Authorize verify db af.username af.password = .error e) :
    (Login verify create db (some af) userAgent).2 = false := by
  unfold Login
  by_cases hv : loginValidationFails af
  · simp [hv]
  · simp [hv, h, authErr, authUser]

/-- Witness for C5: a wrong password on the concrete fixture. -/
theorem login_no_create_on_auth_failure_witness :
    (Login verifyW createW dbW (some ⟨"u1", "bad"⟩) "ua").2 = false :=
  login_no_create_on_auth_failure verifyW createW dbW ⟨"u1", "bad"⟩ "ua" .badPass rfl

/-- C10 (amended): the Login branches mapping `ErrNoUser` / `ErrBadPass` to
401 are unreachable — whenever `Authorize` returns a non-nil error (and the
input passed validation, which is what lets Authorize be reached), the
handler has already answered 400; but the 400 body is `err.Error()`, so
unknown-user and wrong-password remain distinguishable by body even though
they share the status code. -/
theorem login_error_maps_to_400 (verify : String → String → Bool)
    (create : Session → Except Unit SessionID) (db : DB) (af : AuthForm)
    (userAgent : String) (e : RepoError)
    (hval : loginValidationFails af = false)
    (h : Authorize verify db af.username af.password = .error e) :
    Login verify create db (some af) userAgent =
      (⟨400, errorMessage e⟩, false) := by
  unfold Login
  simp [hval, h, authErr, authUser]

/-- Witness for C10's amended theorem: a wrong password yields the 400
response carrying "invalid password". -/
theorem login_error_maps_to_400_witness :
    Login verifyW createW dbW (some ⟨"u1", "bad"⟩) "ua" =
      (⟨400, errorMessage .badPass⟩, false) :=
  login_error_maps_to_400 verifyW createW dbW ⟨"u1", "bad"⟩ "ua" .badPass
    (by decide) rfl

/-- Counterexample for C10 as stated: unknown-user and wrong-password are
distinguishable to the client — both get status 400, but the bodies are the
distinct error strings "no user found" and "invalid password". -/
theorem login_failures_distinguishable :
    Login verifyW createW dbW (some ⟨"u1", "bad"⟩) "ua" =
      (⟨400, "invalid password"⟩, false) ∧
    Login verifyW createW dbW (some ⟨"zz", "pw"⟩) "ua" =
      (⟨400, "no user found"⟩, false) ∧
    (Login verifyW createW dbW (some ⟨"u1", "bad"⟩) "ua").1 ≠
      (Login verifyW createW dbW (some ⟨"zz", "pw"⟩) "ua").1 := by
  refine ⟨by decide, by decide, by decide⟩

/-- C1: the isolation property fails in the code.  In the state `dbW` the
user U (id 1) has its birthday on the cycle's (month, day) = (6, 15) and
two subscribers: S1 (id 2, NULL telegramID) and S2 (id 3, bound account
333).  `GetSubscribedUsers` fails scanning S1's NULL `telegramID` into the
`int64` field, `CheckAndSendNotifications` logs the error and skips U, and
the cycle delivers no notification at all — in particular none to S2's
bound account — where the claim requires exactly one message to S2. -/
theorem cycle_drops_bound_subscriber_on_null_sibling :
    birthdayRows dbW 6 15 = [rowW1] ∧
    joinRows dbW 1 = [rowW2, rowW3] ∧
    GetSubscribedUsers dbW 1 = .error .scanError ∧
    CheckAndSendNotifications dbW 6 15 = [] := by
  refine ⟨by decide, by decide, rfl, rfl⟩

/-- C4: the bearer-token guard shared by GET /users, POST /subscribe and
POST /unsubscribe.  A header without the "Bearer " scheme prefix, or a
stripped token for which the Session Store lookup finds no session, yields
the Unauthenticated (401) response with the repository untouched; when a
session is resolved, the request proceeds past the guard (GetUsers reaches
the repository; the subscription handlers are never Unauthenticated). -/
theorem bearer_guard (check : SessionID → Option Session) (db : DB)
    (hdr : String) (form : Option SubscribeForm) :
    ((goHasPre hdr "Bearer " = false ∨ check ⟨hdr.drop 7⟩ = none) →
      GetUsersHandler check db hdr = (.unauthorized, false) ∧
      SubscribeToUser check db hdr form = (db, .unauthorized, false) ∧
      UnsubscribeToUser check db hdr form = (db, .unauthorized, false)) ∧
    (∀ s : Session, goHasPre hdr "Bearer " = true → check ⟨hdr.drop 7⟩ = some s →
      (GetUsersHandler check db hdr).2 = true ∧
      (SubscribeToUser check db hdr form).2.1 ≠ .unauthorized ∧
      (UnsubscribeToUser check db hdr form).2.1 ≠ .unauthorized) := by
  constructor
  · intro h
    rcases h with hpre | hchk
    · simp [GetUsersHandler, SubscribeToUser, UnsubscribeToUser, hpre]
    · by_cases hpre : goHasPre hdr "Bearer "
      · simp [GetUsersHandler, SubscribeToUser, UnsubscribeToUser, hpre, hchk]
      · simp [GetUsersHandler, SubscribeToUser, UnsubscribeToUser,
          Bool.not_eq_true _ ▸ hpre]
  · intro s hpre hchk
    refine ⟨?_, ?_, ?_⟩
    · simp only [GetUsersHandler, hpre, hchk, Bool.not_true, Bool.false_eq_true,
        if_false]
      cases GetUsers db <;> simp
    · simp only [SubscribeToUser, hpre, hchk, Bool.not_true, Bool.false_eq_true,
        if_false]
      cases form with
      | none => simp
      | some sf =>
          by_cases hval : subscribeValidationFails sf
          · simp [hval]
          · simp only [hval, Bool.false_eq_true, if_false]
            cases (Subscribe db sf.userID sf.subscriberID 1).2 <;> simp
    · simp only [UnsubscribeToUser, hpre, hchk, Bool.not_true, Bool.false_eq_true,
        if_false]
      cases form with
      | none => simp
      | some sf =>
          by_cases hval : subscribeValidationFails sf
          · simp [hval]
          · simp only [hval, Bool.false_eq_true, if_false]
            cases (Subscribe db sf.userID sf.subscriberID 0).2 <;> simp

/-- Witness for C4: a missing session is rejected without a repository call;
a resolved session reaches the repository. -/
theorem bearer_guard_witness :
    GetUsersHandler checkNoneW dbW "Bearer abc" = (.unauthorized, false) ∧
    SubscribeToUser checkNoneW dbW "Token abc" (some ⟨1, 3⟩) =
      (dbW, .unauthorized, false) ∧
    (GetUsersHandler checkSomeW dbW "Bearer abc").2 = true := by
  refine ⟨((bearer_guard checkNoneW dbW "Bearer abc" none).1 (Or.inr rfl)).1,
    ((bearer_guard checkNoneW dbW "Token abc" (some ⟨1, 3⟩)).1 (Or.inl (by decide))).2.1,
    ((bearer_guard checkSomeW dbW "Bearer abc" none).2 ⟨1, "u1", "ua"⟩ (by decide) rfl).1⟩

/-- C6 (amended): `Subscribe(subscribedToID, subscriberID)` (typeOf = 1).
When no user carries the subscribed-to id, it returns `ErrNoUser` with the
database unchanged (no edge inserted).  When that user exists (ids are
unique by schema), two cases follow from the `subscribes` FOREIGN KEY on
`subscriberID`: if no user carries `subscriberID`, the INSERT fails and the
result is `ErrExists` with the database unchanged; if `subscriberID` also
references an existing user, the sole side effect is appending the directed
edge (subscribedToID, subscriberID) and the referenced user's public
identity (id, username, telegram) is returned. -/
theorem subscribe_contract (db : DB) (uid sid : Int) :
    ((∀ r ∈ db.users, r.id ≠ uid) →
      Subscribe db uid sid 1 = (db, .error .noUser)) ∧
    (∀ r ∈ db.users, r.id = uid →
      (∀ r' ∈ db.users, r'.id = uid → r' = r) →
      ((∀ r' ∈ db.users, r'.id ≠ sid) →
        Subscribe db uid sid 1 = (db, .error .alreadyExists)) ∧
      (∀ rs ∈ db.users, rs.id = sid →
        Subscribe db uid sid 1 =
          ({ db with subscribes := db.subscribes ++ [⟨uid, sid⟩] },
           .ok { zeroUser with
             id := r.id
             username := r.username
             telegram := r.telegram }))) := by
  constructor
  · intro h
    have hnone : db.users.find? (fun r => r.id == uid) = none := by
      rw [List.find?_eq_none]
      intro x hx
      simpa using h x hx
    simp [Subscribe, hnone]
  · intro r hr hid huniq
    have hsome : (db.users.find? (fun x => x.id == uid)).isSome := by
      rw [List.find?_isSome]
      exact ⟨r, hr, by simp [hid]⟩
    obtain ⟨r₀, hfind⟩ := Option.isSome_iff_exists.mp hsome
    have hr₀mem := List.mem_of_find?_eq_some hfind
    have hr₀p : r₀.id = uid := by simpa using List.find?_some hfind
    have hr₀ : r₀ = r := huniq r₀ hr₀mem hr₀p
    subst hr₀
    constructor
    · intro hfk
      have hany : db.users.any (fun x => x.id == sid) = false := by
        rw [List.any_eq_false]
        intro x hx
        simpa using hfk x hx
      simp [Subscribe, hfind, hany]
    · intro rs hrs hsid
      have hany : db.users.any (fun x => x.id == sid) = true :=
        List.any_eq_true.mpr ⟨rs, hrs, by simp [hsid]⟩
      simp [Subscribe, hfind, hany]

/-- Witness for C6: all three outcomes on the concrete fixture. -/
theorem subscribe_contract_witness :
    Subscribe dbW 9 3 1 = (dbW, .error .noUser) ∧
    Subscribe dbW 1 9 1 = (dbW, .error .alreadyExists) ∧
    Subscribe dbW 1 3 1 =
      ({ dbW with subscribes := dbW.subscribes ++ [⟨1, 3⟩] },
       .ok { zeroUser with
         id := 1
         username := "u1"
         telegram := "@u1" }) := by
  refine ⟨(subscribe_contract dbW 9 3).1 (by decide),
    ((subscribe_contract dbW 1 9).2 rowW1 (by decide) (by decide) (by decide)).1 (by decide),
    ((subscribe_contract dbW 1 3).2 rowW1 (by decide) (by decide) (by decide)).2
      rowW3 (by decide) (by decide)⟩

/-- Counterexample for C6 as stated: in `dbW` the subscribed-to user id 1
exists, yet `Subscribe 1 9 1` with the nonexistent subscriber id 9 does not
insert the edge and does not return the referenced user's identity — the
INSERT violates the `subscribes` FOREIGN KEY on `subscriberID` and the call
returns `ErrExists` with the database unchanged. -/
theorem subscribe_fk_counterexample :
    rowW1 ∈ dbW.users ∧ rowW1.id = 1 ∧
    dbW.users.find? (fun r => r.id == 9) = none ∧
    Subscribe dbW 1 9 1 = (dbW, .error .alreadyExists) := by
  refine ⟨by decide, by decide, by decide, rfl⟩

/-- C7 (amended): `GetUsers` returns `ErrNoUser` on an empty user table and
the full projected list otherwise; `GetSubscribedUsers` returns `ErrNoUser`
when the join result set is empty and — provided every subscriber row has a
bound external-account ID — the full list otherwise; but a subscriber row
with NULL `telegramID` instead makes it return the row-scan error, not the
list. -/
theorem listing_empty_as_error (db : DB) (uid : Int) :
    (db.users = [] → GetUsers db = .error .noUser) ∧
    (db.users ≠ [] → GetUsers db = .ok (db.users.map scanPublic)) ∧
    (joinRows db uid = [] → GetSubscribedUsers db uid = .error .noUser) ∧
    (joinRows db uid ≠ [] → (∀ s ∈ joinRows db uid, s.telegramID ≠ none) →
      GetSubscribedUsers db uid = .ok ((joinRows db uid).map boundUser)) ∧
    ((∃ s ∈ joinRows db uid, s.telegramID = none) →
      GetSubscribedUsers db uid = .error .scanError) := by
  refine ⟨?_, ?_, ?_, ?_, ?_⟩
  · intro h
    simp [GetUsers, h]
  · intro h
    cases hu : db.users with
    | nil => exact absurd hu h
    | cons a t => simp [GetUsers, hu]
  · intro h
    simp [GetSubscribedUsers, h, scanRows]
  · intro hne hall
    rw [getSubscribedUsers_all_bound db uid hall]
    cases hj : joinRows db uid with
    | nil => exact absurd hj hne
    | cons a t => simp
  · intro hex
    unfold GetSubscribedUsers
    rw [scanRows_null _ hex]

/-- Witness for C7's amended theorem: all four regular outcomes. -/
theorem listing_empty_as_error_witness :
    GetUsers ⟨[], []⟩ = .error .noUser ∧
    GetUsers dbWB = .ok (dbWB.users.map scanPublic) ∧
    GetSubscribedUsers dbWB 3 = .error .noUser ∧
    GetSubscribedUsers dbWB 1 = .ok ((joinRows dbWB 1).map boundUser) := by
  refine ⟨(listing_empty_as_error ⟨[], []⟩ 0).1 rfl,
    (listing_empty_as_error dbWB 0).2.1 (by decide),
    (listing_empty_as_error dbWB 3).2.2.1 (by decide),
    (listing_empty_as_error dbWB 1).2.2.2.1 (by decide) (by decide)⟩

/-- Counterexample for C7 as stated: in `dbW` the subscriber set of user 1
is non-empty (S1 and S2), yet `GetSubscribedUsers` returns the row-scan
error — not the full list with no error — because S1's `telegramID` is
NULL. -/
theorem listing_nonempty_error_counterexample :
    joinRows dbW 1 = [rowW2, rowW3] ∧
    GetSubscribedUsers dbW 1 = .error .scanError := by
  exact ⟨by decide, rfl⟩

lemma cycle_eq_flatMap (db : DB) (m d : Nat) :
    CheckAndSendNotifications db m d =
      ((birthdayRows db m d).map scanPublic).flatMap (fun u =>
        match GetSubscribedUsers db u.id with
        | .error _ => []
        | .ok subscribers =>
            subscribers.map (fun sub => ⟨sub.telegramID, birthdayMessage (displayName u)⟩)) := by
  unfold CheckAndSendNotifications GetUserByBirthday
  cases hbr : birthdayRows db m d with
  | nil => simp [hbr]
  | cons a t => simp [hbr]

lemma cycle_head (db : DB) (r : UserRow) :
    (match GetSubscribedUsers db (scanPublic r).id with
      | .error _ => ([] : List Notification)
      | .ok subscribers =>
          subscribers.map (fun sub =>
            ⟨sub.telegramID, birthdayMessage (displayName (scanPublic r))⟩)) =
    (if (joinRows db r.id).all (fun s => s.telegramID.isSome) then
      (joinRows db r.id).map (fun s =>
        (⟨s.telegramID.getD 0, birthdayMessage (displayName (scanPublic r))⟩ : Notification))
    else []) := by
  have hid : (scanPublic r).id = r.id := rfl
  by_cases hall : ∀ s ∈ joinRows db r.id, s.telegramID ≠ none
  · have hb : (joinRows db r.id).all (fun s => s.telegramID.isSome) = true := by
      rw [List.all_eq_true]
      intro s hs
      cases hss : s.telegramID with
      | none => exact absurd hss (hall s hs)
      | some tid => rfl
    rw [hid, getSubscribedUsers_all_bound db r.id hall]
    simp only [hb, if_true]
    cases hj : joinRows db r.id with
    | nil => simp
    | cons a t => simp [boundUser]
  · push_neg at hall
    have hb : (joinRows db r.id).all (fun s => s.telegramID.isSome) = false := by
      obtain ⟨s, hs, hnone⟩ := hall
      cases hab : (joinRows db r.id).all (fun x => x.telegramID.isSome) with
      | false => rfl
      | true =>
          have := List.all_eq_true.mp hab s hs
          rw [hnone] at this
          simp at this
    unfold GetSubscribedUsers
    rw [hid, scanRows_null _ hall]
    simp [hb]

lemma cycle_flatMap_per_user (db : DB) (l : List UserRow) :
    (l.map scanPublic).flatMap (fun u =>
      match GetSubscribedUsers db u.id with
      | .error _ => ([] : List Notification)
      | .ok subscribers =>
          subscribers.map (fun sub =>
            (⟨sub.telegramID, birthdayMessage (displayName u)⟩ : Notification))) =
    l.flatMap (fun r =>
      if (joinRows db r.id).all (fun s => s.telegramID.isSome) then
        (joinRows db r.id).map (fun s =>
          (⟨s.telegramID.getD 0, birthdayMessage (displayName (scanPublic r))⟩ : Notification))
      else []) := by
  induction l with
  | nil => rfl
  | cons a t ih =>
      rw [List.map_cons, List.flatMap_cons, List.flatMap_cons, ih]
      congr 1
      exact cycle_head db a

/-- Witness fixture: a second birthday user on 15 June, whose sole
subscriber (S2) is bound. -/
def rowW4 : UserRow := ⟨4, "u4", "Olga", "O", "Petrova", "h:pw", ⟨1992, 6, 15⟩, "@u4", some 444⟩

/-- A mixed-cycle state: two birthday users on 15 June — user 1, one of
whose subscribers (S1) is unbound, and user 4, whose sole subscriber S2 is
bound. -/
def dbWMixed : DB := ⟨[rowW1, rowW2, rowW3, rowW4], [⟨1, 2⟩, ⟨1, 3⟩, ⟨4, 3⟩]⟩

/-- C2 (amended): a cycle on (m, d) selects exactly the users whose stored
birth date has month m and day d, for any birth year; and — per selected
user, independently of the other selected users — the cycle emits exactly
one notification per subscriber (addressed to the subscriber's bound
account, containing the selected user's display name) when all of that
user's subscriber rows carry a bound external-account ID, and emits no
notifications at all for a selected user with any NULL-telegramID
subscriber row. -/
theorem birthday_cycle_spec (db : DB) (m d : Nat) :
    (∀ r ∈ db.users,
      (r ∈ birthdayRows db m d ↔ (r.birthday.month = m ∧ r.birthday.day = d))) ∧
    CheckAndSendNotifications db m d =
      (birthdayRows db m d).flatMap (fun r =>
        if (joinRows db r.id).all (fun s => s.telegramID.isSome) then
          (joinRows db r.id).map (fun s =>
            (⟨s.telegramID.getD 0, birthdayMessage (displayName (scanPublic r))⟩ : Notification))
        else []) := by
  constructor
  · intro r hr
    simp [birthdayRows, List.mem_filter, hr]
  · rw [cycle_eq_flatMap, cycle_flatMap_per_user]

/-- Witness for C2's amended theorem at the mixed-cycle state `dbWMixed`:
both users 1 and 4 are selected on (6, 15); user 1 has the unbound
subscriber S1 and contributes nothing, while user 4 independently delivers
exactly one notification to account 333 naming Olga O Petrova.  On (6, 16)
nothing is selected and nothing is sent. -/
theorem birthday_cycle_spec_witness :
    CheckAndSendNotifications dbWMixed 6 15 =
      (birthdayRows dbWMixed 6 15).flatMap (fun r =>
        if (joinRows dbWMixed r.id).all (fun s => s.telegramID.isSome) then
          (joinRows dbWMixed r.id).map (fun s =>
            (⟨s.telegramID.getD 0, birthdayMessage (displayName (scanPublic r))⟩ : Notification))
        else []) ∧
    (rowW1 ∈ birthdayRows dbWMixed 6 15 ↔
      (rowW1.birthday.month = 6 ∧ rowW1.birthday.day = 15)) ∧
    birthdayRows dbWMixed 6 15 = [rowW1, rowW4] ∧
    CheckAndSendNotifications dbWMixed 6 15 =
      [⟨333, birthdayMessage "Olga O Petrova"⟩] ∧
    CheckAndSendNotifications dbWMixed 6 16 = [] := by
  refine ⟨(birthday_cycle_spec dbWMixed 6 15).2,
    (birthday_cycle_spec dbWMixed 6 15).1 rowW1 (by decide),
    by decide, by decide, by decide⟩

/-- Counterexample for C2 as stated: in `dbW`, user 1 is selected on
(6, 15) and has two subscribers, yet the cycle emits zero notifications —
not one per subscriber — because subscriber S1's NULL `telegramID` makes
the subscriber query fail and the user is skipped. -/
theorem birthday_cycle_counterexample :
    rowW1 ∈ dbW.users ∧
    rowW1.birthday = ⟨1990, 6, 15⟩ ∧
    birthdayRows dbW 6 15 = [rowW1] ∧
    (joinRows dbW rowW1.id).length = 2 ∧
    CheckAndSendNotifications dbW 6 15 = [] := by
  refine ⟨by decide, by decide, by decide, by decide, rfl⟩

/-- C8: a successful registration persists exactly one new user row, whose
password field is the bcrypt hash of the supplied password computed before
the insert — never the plaintext password (stated under the assumption that
the hash differs from its input, which bcrypt guarantees). -/
theorem makeUser_persists_hash (hash : String → String) (db : DB)
    (username pass firstname middlename lastname : String) (birthday : Date)
    (telegram : String) (newID : Int) (db' : DB) (u : User)
    (hok : MakeUser hash db username pass firstname middlename lastname
      birthday telegram newID = (db', .ok u))
    (hneq : hash pass ≠ pass) :
    ∃ row : UserRow, db'.users = db.users ++ [row] ∧
      row.password = hash pass ∧ row.password ≠ pass := by
  unfold MakeUser at hok
  by_cases h : db.users.any (fun r => r.username == username || r.telegram == telegram)
  · simp [h] at hok
  · simp only [h, Bool.false_eq_true, if_false] at hok
    rw [Prod.mk.injEq] at hok
    obtain ⟨hdb, -⟩ := hok
    exact ⟨{ id := newID
             username := username
             firstname := firstname
             middlename := middlename
             lastname := lastname
             password := hash pass
             birthday := birthday
             telegram := telegram
             telegramID := none },
      by rw [← hdb], rfl, hneq⟩

/-- Witness for C8: registering a user into the empty database stores the
hash "h:pw", not the plaintext "pw". -/
theorem makeUser_persists_hash_witness :
    ∃ row : UserRow,
      (MakeUser hashW ⟨[], []⟩ "u" "pw" "F" "M" "L" ⟨1990, 6, 15⟩ "@u" 1).1.users =
        ([] : List UserRow) ++ [row] ∧
      row.password = hashW "pw" ∧ row.password ≠ "pw" :=
  makeUser_persists_hash hashW ⟨[], []⟩ "u" "pw" "F" "M" "L" ⟨1990, 6, 15⟩ "@u" 1
    (MakeUser hashW ⟨[], []⟩ "u" "pw" "F" "M" "L" ⟨1990, 6, 15⟩ "@u" 1).1
    { zeroUser with id := 1, username := "u" } rfl (by decide)

/-- Witness for C9: the panic on the concrete fixture state. -/
theorem bare_command_slice_panics_witness :
    subscribeHandler dbW "/subscribe" "x" = .error "slice bounds out of range" :=
  (bare_command_slice_panics dbW "x").1
